import Mathlib

/-!
Verification development for the SDI/NDI frame-routing application.

The Python sources are shallowly embedded: the state of each module is a
structure, each method is a pure function from state (and, where the code
talks to a native SDK, an explicit environment describing the outcomes of
the native calls) to a result, a successor state and a list of observable
events.  Events record, in program order, the native calls issued, the Qt
signals emitted and the status-label updates performed, so that ordering
claims can be settled by inspecting the event list.  The sequential event
order is faithful to the code because every modelled call is synchronous
in the source (`NDIInput.stop` joins its thread before returning).
-/

/-! ## Pixel model (cv2 conversions used by ndi_output.py and ndi_input.py)

`cv2.COLOR_BGR2BGRA` copies the three channels and synthesizes a fully
opaque alpha (255); `cv2.COLOR_BGRA2BGR` drops the alpha channel. -/

structure BGRPix where
  b : Nat
  g : Nat
  r : Nat
  deriving DecidableEq

structure BGRAPix where
  b : Nat
  g : Nat
  r : Nat
  a : Nat
  deriving DecidableEq

def bgr2bgra (p : BGRPix) : BGRAPix := ⟨p.b, p.g, p.r, 255⟩

def bgra2bgr (p : BGRAPix) : BGRPix := ⟨p.b, p.g, p.r⟩

def cvtColorBGR2BGRA (px : List BGRPix) : List BGRAPix := px.map bgr2bgra

def cvtColorBGRA2BGR (px : List BGRAPix) : List BGRPix := px.map bgra2bgr

/-- A canonical BGR frame as routed between modules (a numpy BGR image). -/
structure Frame where
  width : Nat
  height : Nat
  pixels : List BGRPix
  deriving DecidableEq

/-! ## NDIOutput (ndi_output.py)

State: the native sender handle (`self.sender`) and the running flag.
Events record the native NDI calls and the error signal emissions. -/

structure NDIVideoFrameDesc where
  xres : Nat
  yres : Nat
  fourCC : Nat
  frameRateN : Nat
  frameRateD : Nat
  data : List BGRAPix
  deriving DecidableEq

inductive NDIOutEvent where
  | nativeSendVideo (desc : NDIVideoFrameDesc)
  | sendDestroy (handle : Nat)
  | emitError (msg : String)
  | startResult (ok : Bool)
  deriving DecidableEq

structure NDIOutputState where
  sender : Option Nat
  is_running : Bool
  deriving DecidableEq

def NDIOutput.start (s : NDIOutputState) : Bool × NDIOutputState × List NDIOutEvent :=
  match s.sender with
  | none => (false, s, [.emitError "NDI not initialized"])
  | some _ => (true, { s with is_running := true }, [])

def NDIOutput.stop (s : NDIOutputState) : NDIOutputState × List NDIOutEvent :=
  let s1 : NDIOutputState := { s with is_running := false }
  match s1.sender with
  | some h => ({ s1 with sender := none }, [.sendDestroy h])
  | none => (s1, [])

def NDIOutput.send_frame (s : NDIOutputState) (f : Option Frame) :
    Bool × NDIOutputState × List NDIOutEvent :=
  match s.is_running, f, s.sender with
  | true, some fr, some _ =>
      let desc : NDIVideoFrameDesc :=
        { xres := fr.width, yres := fr.height, fourCC := 101,
          frameRateN := 60000, frameRateD := 1001,
          data := cvtColorBGR2BGRA fr.pixels }
      (true, s, [.nativeSendVideo desc])
  | _, _, _ => (false, s, [])

def NDIOutput.sendMany (s : NDIOutputState) (fs : List (Option Frame)) :
    List Bool × NDIOutputState × List NDIOutEvent :=
  match fs with
  | [] => ([], s, [])
  | f :: rest =>
      let r1 := NDIOutput.send_frame s f
      let r2 := NDIOutput.sendMany r1.2.1 rest
      (r1.1 :: r2.1, r2.2.1, r1.2.2 ++ r2.2.2)

inductive NDIOutOp where
  | opStart
  | opStop
  | opSend (f : Option Frame)
  deriving DecidableEq

def NDIOutput.runOps (s : NDIOutputState) (ops : List NDIOutOp) :
    NDIOutputState × List NDIOutEvent :=
  match ops with
  | [] => (s, [])
  | NDIOutOp.opStart :: rest =>
      let r1 := NDIOutput.start s
      let r2 := NDIOutput.runOps r1.2.1 rest
      (r2.1, r1.2.2 ++ [.startResult r1.1] ++ r2.2)
  | NDIOutOp.opStop :: rest =>
      let r1 := NDIOutput.stop s
      let r2 := NDIOutput.runOps r1.1 rest
      (r2.1, r1.2 ++ r2.2)
  | NDIOutOp.opSend f :: rest =>
      let r1 := NDIOutput.send_frame s f
      let r2 := NDIOutput.runOps r1.2.1 rest
      (r2.1, r1.2.2 ++ r2.2)

/-! ## SDIOutput (sdi_output.py)

The DeckLink mode table is the dictionary from config.py; lookups of
missing keys model Python KeyError.  The environment records the outcome
of each native DeckLink call. -/

def DECKLINK_MODE : String → Option Nat := fun k =>
  if k = "bmdModeHD1080p60" then some 0x6000000000000017
  else if k = "bmdModeHD1080p59_94" then some 0x6000000000000016
  else if k = "bmdModeHD1080p50" then some 0x6000000000000015
  else if k = "bmdFormat8BitYUV" then some 0x32595559
  else if k = "bmdVideoInputFlagDefault" then some 0
  else if k = "width" then some 1920
  else if k = "height" then some 1080
  else none

/-- The mode table sdi_output.py assumes: the repository table completed
with the two keys send_frame and EnableVideoOutput look up but config.py
never defines. -/
def completedModeTable : String → Option Nat := fun k =>
  if k = "bmdVideoOutputFlagDefault" then some 0
  else if k = "bmdFrameFlagDefault" then some 0
  else DECKLINK_MODE k

inductive SDIEvent where
  | stopScheduledPlayback
  | disableVideoOutput
  | convertBGR2YUY2 (f : Frame)
  | createVideoFrame (w : Nat) (h : Nat) (stride : Nat) (pixelFormat : Nat) (flags : Nat)
  | memmoveToFrame
  | scheduleVideoFrame (displayTime : Nat) (duration : Nat)
  | startPlayback (startTime : Nat)
  | emitError (msg : String)
  deriving DecidableEq

structure SDIOutputState where
  output : Option Nat
  is_running : Bool
  deriving DecidableEq

structure SDIEnv where
  startPlaybackResult : Nat
  createVideoFrameOk : Bool
  scheduleResult : Nat

def SDIOutput.start (env : SDIEnv) (s : SDIOutputState) :
    Bool × SDIOutputState × List SDIEvent :=
  match s.output with
  | none => (false, s, [.emitError "DeckLink output not initialized"])
  | some _ =>
      if env.startPlaybackResult = 0 then
        (true, { s with is_running := true }, [.startPlayback 0])
      else
        (false, s, [.startPlayback 0, .emitError "Failed to start scheduled playback"])

def SDIOutput.stop (s : SDIOutputState) : SDIOutputState × List SDIEvent :=
  let s1 : SDIOutputState := { s with is_running := false }
  match s1.output with
  | some _ => (s1, [.stopScheduledPlayback, .disableVideoOutput])
  | none => (s1, [])

def SDIOutput.send_frame (mode : String → Option Nat) (env : SDIEnv)
    (s : SDIOutputState) (f : Option Frame) : Bool × SDIOutputState × List SDIEvent :=
  match s.is_running, f, s.output with
  | true, some fr, some _ =>
      let convEv : List SDIEvent := [.convertBGR2YUY2 fr]
      match mode "width", mode "height", mode "bmdFormat8BitYUV", mode "bmdFrameFlagDefault" with
      | some w, some hgt, some fmt, some flags =>
          let ev2 := convEv ++ [SDIEvent.createVideoFrame w hgt (w * 2) fmt flags]
          if env.createVideoFrameOk then
            let ev3 := ev2 ++ [SDIEvent.memmoveToFrame, SDIEvent.scheduleVideoFrame 0 100]
            if env.scheduleResult = 0 then (true, s, ev3)
            else (false, s, ev3 ++ [.emitError "Error sending SDI frame: failed to schedule video frame"])
          else
            (false, s, ev2 ++ [.emitError "Error sending SDI frame: failed to create video frame"])
      | _, _, _, _ =>
          (false, s, convEv ++ [.emitError "Error sending SDI frame: KeyError bmdFrameFlagDefault"])
  | _, _, _ => (false, s, [])

def SDIOutput.sendMany (mode : String → Option Nat) (env : SDIEnv)
    (s : SDIOutputState) (fs : List (Option Frame)) :
    List Bool × SDIOutputState × List SDIEvent :=
  match fs with
  | [] => ([], s, [])
  | f :: rest =>
      let r1 := SDIOutput.send_frame mode env s f
      let r2 := SDIOutput.sendMany mode env r1.2.1 rest
      (r1.1 :: r2.1, r2.2.1, r1.2.2 ++ r2.2.2)

/-- The display times of the scheduled frames, in scheduling order. -/
def scheduleTimes (evs : List SDIEvent) : List Nat :=
  evs.filterMap (fun e => match e with
    | SDIEvent.scheduleVideoFrame t _ => some t
    | _ => none)

/-! ## NDIInput (ndi_input.py)

The receive loop `run` is driven by the sequence of results the native
`NDIlib_recv_capture_v2` call produces; each loop iteration is embedded by
`processOne`, which returns the events of the iteration and whether the loop
breaks (the error-frame branch).  `reshapeOk` is the numpy reshape
precondition: the buffer read from the library pointer (`yres * stride`
bytes) must reshape to `(yres, xres, 4)`. -/

structure RecvFrame where
  xres : Nat
  yres : Nat
  stride : Nat
  data : List Nat
  deriving DecidableEq

def reshapeOk (f : RecvFrame) : Bool :=
  f.data.length == f.yres * f.stride && f.yres * f.stride == f.yres * (f.xres * 4)

/-- Group a flat byte buffer into BGRA pixels, four bytes at a time. -/
def toBGRAPixels : List Nat → List BGRAPix
  | b :: g :: r :: a :: rest => ⟨b, g, r, a⟩ :: toBGRAPixels rest
  | _ => []

inductive CaptureResult where
  | videoFrame (f : Option RecvFrame)
  | errorFrame
  | otherFrame
  deriving DecidableEq

inductive NDIInEvent where
  | recvCapture (timeoutMs : Nat)
  | emitFrame (frame : List BGRPix)
  | emitError (msg : String)
  | freeVideo
  | sleepMs (ms : Nat)
  deriving DecidableEq

def processOne (r : CaptureResult) : List NDIInEvent × Bool :=
  match r with
  | CaptureResult.videoFrame none =>
      ([.recvCapture 1000, .sleepMs 1], false)
  | CaptureResult.videoFrame (some f) =>
      if reshapeOk f then
        ([.recvCapture 1000,
          .emitFrame ((toBGRAPixels f.data).map bgra2bgr),
          .freeVideo, .sleepMs 1], false)
      else
        ([.recvCapture 1000, .emitError "Error processing NDI frame",
          .freeVideo, .sleepMs 1], false)
  | CaptureResult.errorFrame =>
      ([.recvCapture 1000, .emitError "NDI receiver error"], true)
  | CaptureResult.otherFrame =>
      ([.recvCapture 1000, .sleepMs 1], false)

def runLoop : List CaptureResult → List NDIInEvent
  | [] => []
  | r :: rs =>
      let pe := processOne r
      if pe.2 then pe.1 else pe.1 ++ runLoop rs

/-- `NDIInput.run`: the guard on `self.receiver`, then the receive loop;
the returned Bool is the final value of `self.is_running` (set to False
after the loop; left untouched by the early return). -/
def NDIInput.run (hasReceiver : Bool) (wasRunning : Bool)
    (results : List CaptureResult) : List NDIInEvent × Bool :=
  if hasReceiver then (runLoop results, false)
  else ([.emitError "NDI receiver not initialized"], wasRunning)

def emittedFrames (evs : List NDIInEvent) : List (List BGRPix) :=
  evs.filterMap (fun e => match e with
    | NDIInEvent.emitFrame d => some d
    | _ => none)

/-- The frames the loop is expected to deliver: the BGR conversion of each
well-shaped video frame received before the first error frame. -/
def expectedEmits : List CaptureResult → List (List BGRPix)
  | [] => []
  | CaptureResult.videoFrame (some f) :: rs =>
      if reshapeOk f then
        ((toBGRAPixels f.data).map bgra2bgr) :: expectedEmits rs
      else expectedEmits rs
  | CaptureResult.videoFrame none :: rs => expectedEmits rs
  | CaptureResult.errorFrame :: _ => []
  | CaptureResult.otherFrame :: rs => expectedEmits rs

def countRecv (evs : List NDIInEvent) : Nat :=
  (evs.filter (fun e => match e with
    | NDIInEvent.recvCapture _ => true
    | _ => false)).length

def countSleep (evs : List NDIInEvent) : Nat :=
  (evs.filter (fun e => match e with
    | NDIInEvent.sleepMs _ => true
    | _ => false)).length

def isFreeEvent : NDIInEvent → Bool := fun e =>
  match e with
  | NDIInEvent.freeVideo => true
  | _ => false

def isEmitFrameEvent : NDIInEvent → Bool := fun e =>
  match e with
  | NDIInEvent.emitFrame _ => true
  | _ => false

/-- Modelled from the spec wording of the receive loop: the library buffer
is released and only afterwards is the frame event emitted, i.e. the first
release event comes strictly before the first emission event. -/
def specReleaseBeforeEmit (evs : List NDIInEvent) : Bool :=
  match evs.findIdx? isFreeEvent, evs.findIdx? isEmitFrameEvent with
  | some i, some j => decide (i < j)
  | _, _ => false

/-! ## NDI discovery (NDIInput.list_sources)

The environment records whether `NDIlib_find_create2` yields a handle,
the snapshot `NDIlib_find_get_current_sources` returns (`none` models a
NULL pointer), and whether the name-decoding loop raises; the surrounding
try/except turns any raise into an empty result.  Events carry the fixed
2000 ms sleep and the native calls, for the elapsed-time bound. -/

structure DiscoveryEnv where
  findCreateOk : Bool
  currentSources : Option (List (Option String × Option String))
  raiseMsg : Option String

inductive DiscEvent where
  | findCreate2Call
  | sleepMs (ms : Nat)
  | getCurrentSourcesCall
  | findDestroyCall
  deriving DecidableEq

def NDIInput.list_sources (env : DiscoveryEnv) : List String × List DiscEvent :=
  if env.findCreateOk = false then
    ([], [DiscEvent.findCreate2Call])
  else
    match env.currentSources with
    | none =>
        ([], [DiscEvent.findCreate2Call, DiscEvent.sleepMs 2000,
              DiscEvent.getCurrentSourcesCall, DiscEvent.findDestroyCall])
    | some srcs =>
        match env.raiseMsg with
        | some _ =>
            ([], [DiscEvent.findCreate2Call, DiscEvent.sleepMs 2000,
                  DiscEvent.getCurrentSourcesCall])
        | none =>
            (srcs.map (fun p => p.1.getD "Unknown"),
             [DiscEvent.findCreate2Call, DiscEvent.sleepMs 2000,
              DiscEvent.getCurrentSourcesCall, DiscEvent.findDestroyCall])

/-- Wall-clock model: a sleep event lasts its stated duration, any native
call at most `callCost` milliseconds. -/
def discElapsedMs (callCost : Nat) (evs : List DiscEvent) : Nat :=
  evs.foldl (fun acc e => acc + match e with
    | DiscEvent.sleepMs ms => ms
    | _ => callCost) 0

/-- Discovery outcomes with no announcing endpoint (or an internal
failure): handle creation failed, NULL snapshot, empty snapshot, or an
internal exception. -/
def discFailsOrEmpty (env : DiscoveryEnv) : Prop :=
  env.findCreateOk = false ∨ env.currentSources = none ∨
  env.currentSources = some [] ∨ env.raiseMsg.isSome

/-! ## MainWindow conversion control (main.py) — the frame router

`stop_conversion` / `start_conversion` are embedded over a state holding
the current endpoint references, the module references the selectors can
resolve to, the two control buttons and the status label.  Endpoints are
abstracted by a reference carrying an identity and the Bool its `start()`
returns; every call the router makes is recorded as an event in program
order (all the calls are synchronous in the source). -/

structure SourceRef where
  id : Nat
  startOk : Bool
  deriving DecidableEq

structure SinkRef where
  id : Nat
  startOk : Bool
  deriving DecidableEq

inductive REvent where
  | statusSet (msg : String)
  | errorReported (msg : String)
  | previewStopped
  | handlerDisconnected
  | handlerConnected (srcId : Nat)
  | sourceStart (id : Nat) (ok : Bool)
  | sourceStop (id : Nat)
  | sinkStart (id : Nat) (ok : Bool)
  | sinkStop (id : Nat)
  deriving DecidableEq

structure RouterState where
  current_input : Option SourceRef
  current_output : Option SinkRef
  sdi_capture : Option SourceRef
  ndi_output : Option SinkRef
  sdi_output : Option SinkRef
  start_enabled : Bool
  stop_enabled : Bool
  status : String
  deriving DecidableEq

/-- `MainWindow.stop_conversion`: stop the current input if any, then the
current output if any, re-enable Start, disable Stop, set the status. -/
def MainWindow.stop_conversion (s : RouterState) : RouterState × List REvent :=
  let e1 : List REvent :=
    match s.current_input with
    | some src => [.sourceStop src.id]
    | none => []
  let e2 : List REvent :=
    match s.current_output with
    | some snk => [.sinkStop snk.id]
    | none => []
  ({ s with start_enabled := true, stop_enabled := false, status := "Stopped" },
   e1 ++ e2 ++ [REvent.statusSet "Stopped"])

/-- The input selector: SDI uses the module created at startup; NDI
re-instantiates an `NDIInput` for the selected source name (`none` models
a constructor exception). -/
inductive InputChoice where
  | sdiCapture
  | ndiInput (selectedName : String) (constructed : Option SourceRef)

inductive OutputChoice where
  | ndiOutput
  | sdiOutput

def inputTypeName : InputChoice → String
  | InputChoice.sdiCapture => "SDI Capture"
  | InputChoice.ndiInput _ _ => "NDI Input"

def outputTypeName : OutputChoice → String
  | OutputChoice.ndiOutput => "NDI Output"
  | OutputChoice.sdiOutput => "SDI Output"

/-- The input-determination block of `start_conversion`: an `.error` is a
path that calls `handle_error` and returns early (the current input is
left unchanged there); `.ok` is the value assigned to
`self.current_input`. -/
def selectInput (s : RouterState) : InputChoice → Except String (Option SourceRef)
  | InputChoice.sdiCapture => .ok s.sdi_capture
  | InputChoice.ndiInput name constructed =>
      if name = "No NDI sources found" then
        .error "Cannot start NDI input: No NDI sources selected or found."
      else
        match constructed with
        | none => .error "Failed to initialize NDI Input"
        | some src => .ok (some src)

def selectOutput (s : RouterState) : OutputChoice → Option SinkRef
  | OutputChoice.ndiOutput => s.ndi_output
  | OutputChoice.sdiOutput => s.sdi_output

/-- `MainWindow.start_conversion`: set "Starting...", run a full
`stop_conversion`, stop the source preview, resolve the endpoints,
reconnect the forwarding handler, then `source.start()`; on its failure
report and return without touching the sink; otherwise `sink.start()`,
rolling back with `source.stop()` on failure. -/
def MainWindow.start_conversion (s : RouterState) (ic : InputChoice)
    (oc : OutputChoice) : RouterState × List REvent :=
  let stopped := MainWindow.stop_conversion s
  let s1 := stopped.1
  let preEvs := [REvent.statusSet "Starting..."] ++ stopped.2 ++ [REvent.previewStopped]
  match selectInput s1 ic with
  | .error msg =>
      ({ s1 with status := "Error: " ++ msg }, preEvs ++ [REvent.errorReported msg])
  | .ok inp =>
      let outp := selectOutput s1 oc
      let s3 := { s1 with current_input := inp, current_output := outp }
      match inp, outp with
      | some src, some snk =>
          let evs2 := [REvent.handlerDisconnected, REvent.handlerConnected src.id]
          if src.startOk then
            if snk.startOk then
              ({ s3 with
                  status := "Running: " ++ inputTypeName ic ++ " to " ++ outputTypeName oc,
                  start_enabled := false, stop_enabled := true },
               preEvs ++ evs2 ++
                 [REvent.sourceStart src.id true, REvent.sinkStart snk.id true,
                  REvent.statusSet
                    ("Running: " ++ inputTypeName ic ++ " to " ++ outputTypeName oc)])
            else
              ({ s3 with status := "Failed to start " ++ outputTypeName oc },
               preEvs ++ evs2 ++
                 [REvent.sourceStart src.id true, REvent.sinkStart snk.id false,
                  REvent.sourceStop src.id,
                  REvent.statusSet ("Failed to start " ++ outputTypeName oc)])
          else
            ({ s3 with status := "Failed to start " ++ inputTypeName ic },
             preEvs ++ evs2 ++
               [REvent.sourceStart src.id false,
                REvent.statusSet ("Failed to start " ++ inputTypeName ic)])
      | _, _ =>
          ({ s3 with status := "Error: Input or Output module not initialized correctly." },
           preEvs ++ [REvent.errorReported "Input or Output module not initialized correctly."])

/-- Idle as observable on the control surface: Start enabled, Stop
disabled. -/
def routerIdle (s : RouterState) : Prop :=
  s.start_enabled = true ∧ s.stop_enabled = false

def isStartEvent : REvent → Bool
  | REvent.sourceStart _ _ => true
  | REvent.sinkStart _ _ => true
  | _ => false

def isUnsubEvent : REvent → Bool
  | REvent.handlerDisconnected => true
  | _ => false

def isSourceStopEvent : REvent → Bool
  | REvent.sourceStop _ => true
  | _ => false

def isSinkStopEvent : REvent → Bool
  | REvent.sinkStop _ => true
  | _ => false

/-- Modelled from the spec wording of `stop()`: first unsubscribe the
forwarding handler, then stop the sink, then stop the source — i.e. the
first unsubscription comes before the first sink stop, which comes before
the first source stop. -/
def specStopOrder (evs : List REvent) : Bool :=
  match evs.findIdx? isUnsubEvent, evs.findIdx? isSinkStopEvent,
        evs.findIdx? isSourceStopEvent with
  | some u, some k, some j => decide (u < k) && decide (k < j)
  | _, _, _ => false

/-! ## Helper lemmas -/

lemma ndi_send_frame_not_ready {s : NDIOutputState} {f : Option Frame}
    (h : s.is_running = false ∨ s.sender = none) :
    NDIOutput.send_frame s f = (false, s, []) := by
  cases hr : s.is_running <;> cases f <;> cases hs : s.sender <;>
    simp_all [NDIOutput.send_frame]

lemma ndi_stop_not_running (s : NDIOutputState) :
    ((NDIOutput.stop s).1).is_running = false := by
  cases hs : s.sender <;> simp [NDIOutput.stop, hs]

lemma ndi_stop_sender_none (s : NDIOutputState) :
    ((NDIOutput.stop s).1).sender = none := by
  cases hs : s.sender <;> simp [NDIOutput.stop, hs]

lemma ndi_sendMany_stopped (fs : List (Option Frame)) :
    ∀ (s : NDIOutputState), s.is_running = false →
      NDIOutput.sendMany s fs = (fs.map (fun _ => false), s, []) := by
  induction fs with
  | nil => intro s _; rfl
  | cons f rest ih =>
      intro s h
      simp [NDIOutput.sendMany, ndi_send_frame_not_ready (Or.inl h), ih s h]

lemma sdi_send_frame_not_ready (mode : String → Option Nat) (env : SDIEnv)
    {s : SDIOutputState} {f : Option Frame} (h : s.is_running = false) :
    SDIOutput.send_frame mode env s f = (false, s, []) := by
  cases f <;> cases hs : s.output <;> simp_all [SDIOutput.send_frame]

lemma sdi_stop_not_running (s : SDIOutputState) :
    ((SDIOutput.stop s).1).is_running = false := by
  cases hs : s.output <;> simp [SDIOutput.stop, hs]

lemma sdi_sendMany_stopped (mode : String → Option Nat) (env : SDIEnv)
    (fs : List (Option Frame)) :
    ∀ (s : SDIOutputState), s.is_running = false →
      SDIOutput.sendMany mode env s fs = (fs.map (fun _ => false), s, []) := by
  induction fs with
  | nil => intro s _; rfl
  | cons f rest ih =>
      intro s h
      simp [SDIOutput.sendMany, sdi_send_frame_not_ready mode env h, ih s h]

/-! ## Claim theorems -/

/-- Claim C6: converting a canonical BGR buffer to BGRA (alpha synthesized
as fully opaque) and back to BGR (dropping alpha) reproduces the original
BGR pixel values exactly. -/
theorem bgr_bgra_roundtrip (px : List BGRPix) :
    cvtColorBGRA2BGR (cvtColorBGR2BGRA px) = px := by
  induction px with
  | nil => rfl
  | cons p ps ih =>
      simpa [cvtColorBGR2BGRA, cvtColorBGRA2BGR, bgr2bgra, bgra2bgr] using ih

/-- Claim C8: after `stop()` of a sink returns, no subsequent frame is ever
delivered to that sink instance — for both the NDI and the SDI output,
every later `send_frame` call returns False, issues no native call at all,
and leaves the stopped state unchanged. -/
theorem sink_send_after_stop_fails :
    (∀ (s : NDIOutputState) (fs : List (Option Frame)),
      NDIOutput.sendMany (NDIOutput.stop s).1 fs
        = (fs.map (fun _ => false), (NDIOutput.stop s).1, []))
    ∧ (∀ (mode : String → Option Nat) (env : SDIEnv) (s : SDIOutputState)
        (fs : List (Option Frame)),
      SDIOutput.sendMany mode env (SDIOutput.stop s).1 fs
        = (fs.map (fun _ => false), (SDIOutput.stop s).1, [])) := by
  constructor
  · intro s fs
    exact ndi_sendMany_stopped fs _ (ndi_stop_not_running s)
  · intro mode env s fs
    exact sdi_sendMany_stopped mode env fs _ (sdi_stop_not_running s)

lemma ndi_runOps_sender_none (ops : List NDIOutOp) :
    ∀ (t : NDIOutputState), t.sender = none →
      (NDIOutput.runOps t ops).1.sender = none
      ∧ (∀ b, NDIOutEvent.startResult b ∈ (NDIOutput.runOps t ops).2 → b = false)
      ∧ (NDIOutOp.opStart ∈ ops →
          NDIOutEvent.emitError "NDI not initialized" ∈ (NDIOutput.runOps t ops).2) := by
  induction ops with
  | nil => intro t ht; simp [NDIOutput.runOps, ht]
  | cons op rest ih =>
      intro t ht
      cases op with
      | opStart =>
          have hstart : NDIOutput.start t
              = (false, t, [NDIOutEvent.emitError "NDI not initialized"]) := by
            simp [NDIOutput.start, ht]
          obtain ⟨h1, h2, h3⟩ := ih t ht
          refine ⟨?_, ?_, ?_⟩
          · simpa [NDIOutput.runOps, hstart] using h1
          · intro b hb
            simp [NDIOutput.runOps, hstart] at hb
            rcases hb with hb | hb
            · exact hb
            · exact h2 b hb
          · intro _
            simp [NDIOutput.runOps, hstart]
      | opStop =>
          have hstop : ((NDIOutput.stop t).1).sender = none := ndi_stop_sender_none t
          obtain ⟨h1, h2, h3⟩ := ih (NDIOutput.stop t).1 hstop
          refine ⟨?_, ?_, ?_⟩
          · simpa [NDIOutput.runOps] using h1
          · intro b hb
            simp [NDIOutput.runOps, NDIOutput.stop, ht] at hb
            exact h2 b (by simpa [NDIOutput.stop, ht] using hb)
          · intro hmem
            have hmem2 : NDIOutOp.opStart ∈ rest := by simpa using hmem
            have := h3 hmem2
            simp [NDIOutput.runOps]
            right
            simpa [NDIOutput.stop, ht] using this
      | opSend f =>
          have hsend : NDIOutput.send_frame t f = (false, t, []) :=
            ndi_send_frame_not_ready (Or.inr ht)
          obtain ⟨h1, h2, h3⟩ := ih t ht
          refine ⟨?_, ?_, ?_⟩
          · simpa [NDIOutput.runOps, hsend] using h1
          · intro b hb
            simp [NDIOutput.runOps, hsend] at hb
            exact h2 b hb
          · intro hmem
            have hmem2 : NDIOutOp.opStart ∈ rest := by simpa using hmem
            simpa [NDIOutput.runOps, hsend] using h3 hmem2

/-- Claim C9: once `NDIOutput.stop` has run, the sender handle is
destroyed and cleared; from then on, under any further sequence of
operations on the same instance, the handle stays cleared, every
subsequent `start()` returns False, and each such start reports
"NDI not initialized". -/
theorem ndi_output_no_restart_after_stop (s : NDIOutputState) (ops : List NDIOutOp) :
    ((NDIOutput.stop s).1).sender = none
    ∧ (NDIOutput.runOps (NDIOutput.stop s).1 ops).1.sender = none
    ∧ (∀ b, NDIOutEvent.startResult b ∈ (NDIOutput.runOps (NDIOutput.stop s).1 ops).2 →
        b = false)
    ∧ (NDIOutOp.opStart ∈ ops →
        NDIOutEvent.emitError "NDI not initialized"
          ∈ (NDIOutput.runOps (NDIOutput.stop s).1 ops).2) := by
  obtain ⟨h1, h2, h3⟩ := ndi_runOps_sender_none ops (NDIOutput.stop s).1 (ndi_stop_sender_none s)
  exact ⟨ndi_stop_sender_none s, h1, h2, h3⟩

/-- Witness for C9 at a concrete stopped instance: a start after stop
reports the initialization failure. -/
theorem ndi_output_no_restart_after_stop_witness :
    NDIOutEvent.emitError "NDI not initialized"
      ∈ (NDIOutput.runOps (NDIOutput.stop ⟨some 5, true⟩).1 [NDIOutOp.opStart]).2 :=
  (ndi_output_no_restart_after_stop ⟨some 5, true⟩ [NDIOutOp.opStart]).2.2.2 (by decide)

/-- A router state mid-conversion: a source (id 1) and a sink (id 2) are
attached and the pipeline is running. -/
def routerRunningExample : RouterState :=
  { current_input := some ⟨1, true⟩, current_output := some ⟨2, true⟩,
    sdi_capture := some ⟨1, true⟩, ndi_output := some ⟨2, true⟩,
    sdi_output := some ⟨3, true⟩,
    start_enabled := false, stop_enabled := true,
    status := "Running: SDI Capture to NDI Output" }

/-- Claim C2 counterexample: at a running state with both endpoints
attached, `stop_conversion` stops the source first and then the sink, and
performs no unsubscription at all — the order the claim states
(unsubscribe, then sink.stop, then source.stop) does not hold. -/
theorem stop_conversion_order_counterexample :
    (MainWindow.stop_conversion routerRunningExample).2
      = [REvent.sourceStop 1, REvent.sinkStop 2, REvent.statusSet "Stopped"]
    ∧ specStopOrder (MainWindow.stop_conversion routerRunningExample).2 = false := by
  exact ⟨rfl, by decide⟩

/-- Claim C2, amended: `stop_conversion` stops the source (if attached),
then the sink (if attached), then transitions to Idle, with no handler
unsubscription; it is idempotent, and with no endpoints attached it only
sets the status and leaves the router Idle. -/
theorem stop_conversion_amended (s : RouterState) (src : SourceRef) (snk : SinkRef)
    (h1 : s.current_input = some src) (h2 : s.current_output = some snk) :
    (MainWindow.stop_conversion s).2
      = [REvent.sourceStop src.id, REvent.sinkStop snk.id, REvent.statusSet "Stopped"]
    ∧ routerIdle (MainWindow.stop_conversion s).1
    ∧ (MainWindow.stop_conversion (MainWindow.stop_conversion s).1).1
        = (MainWindow.stop_conversion s).1
    ∧ (∀ e ∈ (MainWindow.stop_conversion s).2, isUnsubEvent e = false)
    ∧ (∀ t : RouterState, t.current_input = none → t.current_output = none →
        (MainWindow.stop_conversion t).2 = [REvent.statusSet "Stopped"]
        ∧ routerIdle (MainWindow.stop_conversion t).1) := by
  refine ⟨?_, ?_, ?_, ?_, ?_⟩
  · simp [MainWindow.stop_conversion, h1, h2]
  · exact ⟨rfl, rfl⟩
  · rfl
  · intro e he
    simp [MainWindow.stop_conversion, h1, h2] at he
    rcases he with he | he | he <;> subst he <;> rfl
  · intro t ht1 ht2
    exact ⟨by simp [MainWindow.stop_conversion, ht1, ht2], rfl, rfl⟩

/-- Witness for the amended C2 at the concrete running state. -/
theorem stop_conversion_amended_witness :
    (MainWindow.stop_conversion routerRunningExample).2
      = [REvent.sourceStop 1, REvent.sinkStop 2, REvent.statusSet "Stopped"]
    ∧ routerIdle (MainWindow.stop_conversion routerRunningExample).1 :=
  ⟨(stop_conversion_amended routerRunningExample ⟨1, true⟩ ⟨2, true⟩ rfl rfl).1,
   (stop_conversion_amended routerRunningExample ⟨1, true⟩ ⟨2, true⟩ rfl rfl).2.1⟩

/-- A started SDI output with a live native output interface, and an
environment in which every native DeckLink call succeeds. -/
def sdiRunningState : SDIOutputState := { output := some 1, is_running := true }

def sdiEnvOk : SDIEnv :=
  { startPlaybackResult := 0, createVideoFrameOk := true, scheduleResult := 0 }

def testFrame : Frame :=
  { width := 2, height := 1, pixels := [⟨0, 0, 0⟩, ⟨255, 255, 255⟩] }

/-- Claim C4: the SDI sink does not schedule frames at a monotonically
increasing frame index.  Even with the mode table completed so the native
calls can be reached and succeed, two consecutive accepted frames are both
scheduled at the constant display time 0 (the literal in
`ScheduleVideoFrame(video_frame, 0, 100, 1.0)`); and with the repository
`DECKLINK_MODE` table itself the lookup of `bmdFrameFlagDefault` raises
KeyError, so `send_frame` returns False and never schedules anything. -/
theorem sdi_schedule_constant_display_time :
    (SDIOutput.send_frame completedModeTable sdiEnvOk sdiRunningState (some testFrame)).1
      = true
    ∧ scheduleTimes
        (SDIOutput.send_frame completedModeTable sdiEnvOk sdiRunningState
          (some testFrame)).2.2 = [0]
    ∧ (SDIOutput.send_frame completedModeTable sdiEnvOk
        (SDIOutput.send_frame completedModeTable sdiEnvOk sdiRunningState
          (some testFrame)).2.1 (some testFrame)).1 = true
    ∧ scheduleTimes
        (SDIOutput.send_frame completedModeTable sdiEnvOk
          (SDIOutput.send_frame completedModeTable sdiEnvOk sdiRunningState
            (some testFrame)).2.1 (some testFrame)).2.2 = [0]
    ∧ (SDIOutput.send_frame DECKLINK_MODE sdiEnvOk sdiRunningState (some testFrame)).1
        = false
    ∧ scheduleTimes
        (SDIOutput.send_frame DECKLINK_MODE sdiEnvOk sdiRunningState
          (some testFrame)).2.2 = [] := by
  refine ⟨rfl, by decide, rfl, by decide, rfl, by decide⟩

/-- A discovery environment in which the find handle is created, no
endpoint announces itself, and nothing raises. -/
def discEnvEmpty : DiscoveryEnv :=
  { findCreateOk := true, currentSources := some [], raiseMsg := none }

/-- Claim C7: discovery never throws — on find-handle failure, a NULL or
empty snapshot, or an internal error it returns the empty list — and its
wall time is the fixed 2000 ms discovery wait plus at most three native
calls of bounded cost. -/
theorem list_sources_total_and_bounded (env : DiscoveryEnv) (c : Nat)
    (h : discFailsOrEmpty env) :
    (NDIInput.list_sources env).1 = []
    ∧ discElapsedMs c (NDIInput.list_sources env).2 ≤ 2000 + 3 * c := by
  obtain ⟨fc, cs, rm⟩ := env
  cases fc with
  | false =>
      refine ⟨rfl, ?_⟩
      simp [NDIInput.list_sources, discElapsedMs]
      omega
  | true =>
      cases cs with
      | none =>
          refine ⟨rfl, ?_⟩
          simp [NDIInput.list_sources, discElapsedMs]
          omega
      | some srcs =>
          cases rm with
          | some m =>
              refine ⟨rfl, ?_⟩
              simp [NDIInput.list_sources, discElapsedMs]
              omega
          | none =>
              simp [discFailsOrEmpty] at h
              subst h
              refine ⟨rfl, ?_⟩
              simp [NDIInput.list_sources, discElapsedMs]
              omega

/-- Witness for C7: the zero-endpoint environment, with native calls
costing at most 7 ms each. -/
theorem list_sources_total_and_bounded_witness :
    (NDIInput.list_sources discEnvEmpty).1 = []
    ∧ discElapsedMs 7 (NDIInput.list_sources discEnvEmpty).2 ≤ 2000 + 3 * 7 :=
  list_sources_total_and_bounded discEnvEmpty 7
    (Or.inr (Or.inr (Or.inl rfl)))

lemma processOne_no_break {r : CaptureResult} (h : r ≠ CaptureResult.errorFrame) :
    (processOne r).2 = false := by
  cases r with
  | videoFrame f =>
      cases f with
      | none => rfl
      | some fr => by_cases hf : reshapeOk fr <;> simp [processOne, hf]
  | errorFrame => exact absurd rfl h
  | otherFrame => rfl

lemma runLoop_append_no_error {l1 : List CaptureResult}
    (h : ∀ r ∈ l1, r ≠ CaptureResult.errorFrame) (l2 : List CaptureResult) :
    runLoop (l1 ++ l2) = runLoop l1 ++ runLoop l2 := by
  induction l1 with
  | nil => simp [runLoop]
  | cons r rs ih =>
      have hr := h r (List.mem_cons_self r rs)
      have hb := processOne_no_break hr
      have ih2 := ih (fun x hx => h x (List.mem_cons_of_mem r hx))
      simp [runLoop, hb, ih2]

lemma emitted_runLoop_eq_expected (results : List CaptureResult) :
    emittedFrames (runLoop results) = expectedEmits results := by
  induction results with
  | nil => rfl
  | cons r rs ih =>
      cases r with
      | videoFrame f =>
          cases f with
          | none =>
              simpa [runLoop, processOne, emittedFrames, expectedEmits,
                List.filterMap_append] using ih
          | some fr =>
              by_cases hf : reshapeOk fr <;>
                simpa [runLoop, processOne, hf, emittedFrames, expectedEmits,
                  List.filterMap_append] using ih
      | errorFrame =>
          simp [runLoop, processOne, emittedFrames, expectedEmits]
      | otherFrame =>
          simpa [runLoop, processOne, emittedFrames, expectedEmits,
            List.filterMap_append] using ih

/-- Claim C10: whenever the receive call yields the error frame type, the
loop emits "NDI receiver error" and exits permanently: the events end at
that error (the results after it are never processed, so no frame is ever
emitted after it), the final running flag is False, and the frames emitted
are exactly those converted from the receives before the error. -/
theorem run_error_frame_stops_loop (pre post : List CaptureResult)
    (hpre : ∀ r ∈ pre, r ≠ CaptureResult.errorFrame) :
    NDIInput.run true false (pre ++ CaptureResult.errorFrame :: post)
      = (runLoop pre
          ++ [NDIInEvent.recvCapture 1000, NDIInEvent.emitError "NDI receiver error"],
         false)
    ∧ emittedFrames (runLoop pre
        ++ [NDIInEvent.recvCapture 1000, NDIInEvent.emitError "NDI receiver error"])
      = expectedEmits pre := by
  constructor
  · have h1 : runLoop (pre ++ CaptureResult.errorFrame :: post)
        = runLoop pre ++ runLoop (CaptureResult.errorFrame :: post) :=
      runLoop_append_no_error hpre _
    have h2 : runLoop (CaptureResult.errorFrame :: post)
        = [NDIInEvent.recvCapture 1000, NDIInEvent.emitError "NDI receiver error"] := rfl
    simp [NDIInput.run, h1, h2]
  · rw [show emittedFrames (runLoop pre
        ++ [NDIInEvent.recvCapture 1000, NDIInEvent.emitError "NDI receiver error"])
        = emittedFrames (runLoop pre) by
      simp [emittedFrames, List.filterMap_append]]
    exact emitted_runLoop_eq_expected pre

/-- Witness for C10: a timed-out iteration followed by an error frame. -/
theorem run_error_frame_stops_loop_witness :
    NDIInput.run true false ([CaptureResult.otherFrame] ++ CaptureResult.errorFrame :: [])
      = (runLoop [CaptureResult.otherFrame]
          ++ [NDIInEvent.recvCapture 1000, NDIInEvent.emitError "NDI receiver error"],
         false) :=
  (run_error_frame_stops_loop [CaptureResult.otherFrame] [] (by decide)).1

/-- A well-shaped received NDI frame: one BGRA pixel. -/
def recvFrameExample : RecvFrame :=
  { xres := 1, yres := 1, stride := 4, data := [10, 20, 30, 255] }

/-- Claim C5 counterexample: on a successful video frame the loop emits
the converted frame (index 1) strictly before it releases the library
buffer (index 2) — the frame event is emitted inside the try block and
`NDIlib_recv_free_video_v2` only runs in the finally clause — so the
claimed order "releases the library buffer, and then emits" is false. -/
theorem run_release_order_counterexample :
    runLoop [CaptureResult.videoFrame (some recvFrameExample)]
      = [NDIInEvent.recvCapture 1000,
         NDIInEvent.emitFrame [⟨10, 20, 30⟩],
         NDIInEvent.freeVideo, NDIInEvent.sleepMs 1]
    ∧ specReleaseBeforeEmit
        (runLoop [CaptureResult.videoFrame (some recvFrameExample)]) = false := by
  exact ⟨by decide, by decide⟩

lemma runLoop_recv_timeout (results : List CaptureResult) :
    ∀ t, NDIInEvent.recvCapture t ∈ runLoop results → t = 1000 := by
  induction results with
  | nil => intro t h; simp [runLoop] at h
  | cons r rs ih =>
      intro t h
      cases r with
      | videoFrame f =>
          cases f with
          | none =>
              simp [runLoop, processOne] at h
              rcases h with h | h
              · exact h
              · exact ih t h
          | some fr =>
              by_cases hf : reshapeOk fr <;>
                simp [runLoop, processOne, hf] at h <;>
                rcases h with h | h <;> first | exact h | exact ih t h
      | errorFrame =>
          simp [runLoop, processOne] at h
          exact h
      | otherFrame =>
          simp [runLoop, processOne] at h
          rcases h with h | h
          · exact h
          · exact ih t h

lemma countRecv_append (a b : List NDIInEvent) :
    countRecv (a ++ b) = countRecv a + countRecv b := by
  simp [countRecv, List.filter_append]

lemma countSleep_append (a b : List NDIInEvent) :
    countSleep (a ++ b) = countSleep a + countSleep b := by
  simp [countSleep, List.filter_append]

lemma runLoop_count_bound (results : List CaptureResult) :
    countRecv (runLoop results) ≤ countSleep (runLoop results) + 1 := by
  induction results with
  | nil => simp [runLoop, countRecv, countSleep]
  | cons r rs ih =>
      cases r with
      | videoFrame f =>
          cases f with
          | none =>
              have hs : runLoop (CaptureResult.videoFrame none :: rs)
                  = [NDIInEvent.recvCapture 1000, NDIInEvent.sleepMs 1] ++ runLoop rs := by
                simp [runLoop, processOne]
              rw [hs, countRecv_append, countSleep_append]
              have e1 : countRecv [NDIInEvent.recvCapture 1000, NDIInEvent.sleepMs 1] = 1 := rfl
              have e2 : countSleep [NDIInEvent.recvCapture 1000, NDIInEvent.sleepMs 1] = 1 := rfl
              omega
          | some fr =>
              by_cases hf : reshapeOk fr
              · have hs : runLoop (CaptureResult.videoFrame (some fr) :: rs)
                    = [NDIInEvent.recvCapture 1000,
                       NDIInEvent.emitFrame ((toBGRAPixels fr.data).map bgra2bgr),
                       NDIInEvent.freeVideo, NDIInEvent.sleepMs 1] ++ runLoop rs := by
                  simp [runLoop, processOne, hf]
                rw [hs, countRecv_append, countSleep_append]
                have e1 : countRecv [NDIInEvent.recvCapture 1000,
                    NDIInEvent.emitFrame ((toBGRAPixels fr.data).map bgra2bgr),
                    NDIInEvent.freeVideo, NDIInEvent.sleepMs 1] = 1 := rfl
                have e2 : countSleep [NDIInEvent.recvCapture 1000,
                    NDIInEvent.emitFrame ((toBGRAPixels fr.data).map bgra2bgr),
                    NDIInEvent.freeVideo, NDIInEvent.sleepMs 1] = 1 := rfl
                omega
              · have hs : runLoop (CaptureResult.videoFrame (some fr) :: rs)
                    = [NDIInEvent.recvCapture 1000,
                       NDIInEvent.emitError "Error processing NDI frame",
                       NDIInEvent.freeVideo, NDIInEvent.sleepMs 1] ++ runLoop rs := by
                  simp [runLoop, processOne, hf]
                rw [hs, countRecv_append, countSleep_append]
                have e1 : countRecv [NDIInEvent.recvCapture 1000,
                    NDIInEvent.emitError "Error processing NDI frame",
                    NDIInEvent.freeVideo, NDIInEvent.sleepMs 1] = 1 := rfl
                have e2 : countSleep [NDIInEvent.recvCapture 1000,
                    NDIInEvent.emitError "Error processing NDI frame",
                    NDIInEvent.freeVideo, NDIInEvent.sleepMs 1] = 1 := rfl
                omega
      | errorFrame =>
          have hs : runLoop (CaptureResult.errorFrame :: rs)
              = [NDIInEvent.recvCapture 1000,
                 NDIInEvent.emitError "NDI receiver error"] := rfl
          rw [hs]
          have e1 : countRecv [NDIInEvent.recvCapture 1000,
              NDIInEvent.emitError "NDI receiver error"] = 1 := rfl
          omega
      | otherFrame =>
          have hs : runLoop (CaptureResult.otherFrame :: rs)
              = [NDIInEvent.recvCapture 1000, NDIInEvent.sleepMs 1] ++ runLoop rs := by
            simp [runLoop, processOne]
          rw [hs, countRecv_append, countSleep_append]
          have e1 : countRecv [NDIInEvent.recvCapture 1000, NDIInEvent.sleepMs 1] = 1 := rfl
          have e2 : countSleep [NDIInEvent.recvCapture 1000, NDIInEvent.sleepMs 1] = 1 := rfl
          omega

lemma emit_free_append {blk rest : List NDIInEvent}
    (hblk : ∀ i d, blk[i]? = some (NDIInEvent.emitFrame d) →
        blk[i+1]? = some NDIInEvent.freeVideo ∧ i + 1 < blk.length)
    (hrest : ∀ i d, rest[i]? = some (NDIInEvent.emitFrame d) →
        rest[i+1]? = some NDIInEvent.freeVideo) :
    ∀ i d, (blk ++ rest)[i]? = some (NDIInEvent.emitFrame d) →
      (blk ++ rest)[i+1]? = some NDIInEvent.freeVideo := by
  intro i d h
  by_cases hi : i < blk.length
  · rw [List.getElem?_append_left hi] at h
    obtain ⟨h2, hlt⟩ := hblk i d h
    rw [List.getElem?_append_left hlt]
    exact h2
  · push_neg at hi
    rw [List.getElem?_append_right hi] at h
    have h2 := hrest _ d h
    rw [List.getElem?_append_right (Nat.le_succ_of_le hi)]
    have harith : i + 1 - blk.length = (i - blk.length) + 1 := by omega
    rw [harith]
    exact h2

lemma emit_free_block_video (c : List BGRPix) :
    ∀ i d, ([NDIInEvent.recvCapture 1000, NDIInEvent.emitFrame c,
             NDIInEvent.freeVideo, NDIInEvent.sleepMs 1] : List NDIInEvent)[i]?
        = some (NDIInEvent.emitFrame d) →
      ([NDIInEvent.recvCapture 1000, NDIInEvent.emitFrame c,
        NDIInEvent.freeVideo, NDIInEvent.sleepMs 1] : List NDIInEvent)[i+1]?
        = some NDIInEvent.freeVideo
      ∧ i + 1 < ([NDIInEvent.recvCapture 1000, NDIInEvent.emitFrame c,
          NDIInEvent.freeVideo, NDIInEvent.sleepMs 1] : List NDIInEvent).length := by
  intro i d h
  match i with
  | 0 => simp at h
  | 1 => exact ⟨rfl, by simp⟩
  | 2 => simp at h
  | 3 => simp at h
  | n + 4 => simp at h

lemma emit_free_block_pair (e1 e2 : NDIInEvent)
    (h1 : isEmitFrameEvent e1 = false) (h2 : isEmitFrameEvent e2 = false) :
    ∀ i d, ([e1, e2] : List NDIInEvent)[i]? = some (NDIInEvent.emitFrame d) →
      ([e1, e2] : List NDIInEvent)[i+1]? = some NDIInEvent.freeVideo
      ∧ i + 1 < ([e1, e2] : List NDIInEvent).length := by
  intro i d h
  match i with
  | 0 =>
      simp at h
      rw [h] at h1
      simp [isEmitFrameEvent] at h1
  | 1 =>
      simp at h
      rw [h] at h2
      simp [isEmitFrameEvent] at h2
  | n + 2 => simp at h

lemma emit_free_block_badframe :
    ∀ i d, ([NDIInEvent.recvCapture 1000,
             NDIInEvent.emitError "Error processing NDI frame",
             NDIInEvent.freeVideo, NDIInEvent.sleepMs 1] : List NDIInEvent)[i]?
        = some (NDIInEvent.emitFrame d) →
      ([NDIInEvent.recvCapture 1000,
        NDIInEvent.emitError "Error processing NDI frame",
        NDIInEvent.freeVideo, NDIInEvent.sleepMs 1] : List NDIInEvent)[i+1]?
        = some NDIInEvent.freeVideo
      ∧ i + 1 < ([NDIInEvent.recvCapture 1000,
          NDIInEvent.emitError "Error processing NDI frame",
          NDIInEvent.freeVideo, NDIInEvent.sleepMs 1] : List NDIInEvent).length := by
  intro i d h
  match i with
  | 0 => simp at h
  | 1 => simp at h
  | 2 => simp at h
  | 3 => simp at h
  | n + 4 => simp at h

lemma runLoop_emit_then_free (results : List CaptureResult) :
    ∀ i d, (runLoop results)[i]? = some (NDIInEvent.emitFrame d) →
      (runLoop results)[i+1]? = some NDIInEvent.freeVideo := by
  induction results with
  | nil => intro i d h; simp [runLoop] at h
  | cons r rs ih =>
      cases r with
      | videoFrame f =>
          cases f with
          | none =>
              have hs : runLoop (CaptureResult.videoFrame none :: rs)
                  = [NDIInEvent.recvCapture 1000, NDIInEvent.sleepMs 1] ++ runLoop rs := by
                simp [runLoop, processOne]
              rw [hs]
              exact emit_free_append
                (emit_free_block_pair _ _ rfl rfl) ih
          | some fr =>
              by_cases hf : reshapeOk fr
              · have hs : runLoop (CaptureResult.videoFrame (some fr) :: rs)
                    = [NDIInEvent.recvCapture 1000,
                       NDIInEvent.emitFrame ((toBGRAPixels fr.data).map bgra2bgr),
                       NDIInEvent.freeVideo, NDIInEvent.sleepMs 1] ++ runLoop rs := by
                  simp [runLoop, processOne, hf]
                rw [hs]
                exact emit_free_append (emit_free_block_video _) ih
              · have hs : runLoop (CaptureResult.videoFrame (some fr) :: rs)
                    = [NDIInEvent.recvCapture 1000,
                       NDIInEvent.emitError "Error processing NDI frame",
                       NDIInEvent.freeVideo, NDIInEvent.sleepMs 1] ++ runLoop rs := by
                  simp [runLoop, processOne, hf]
                rw [hs]
                exact emit_free_append emit_free_block_badframe ih
      | errorFrame =>
          intro i d h
          have hs : runLoop (CaptureResult.errorFrame :: rs)
              = [NDIInEvent.recvCapture 1000,
                 NDIInEvent.emitError "NDI receiver error"] := rfl
          rw [hs] at h
          match i with
          | 0 => simp at h
          | 1 => simp at h
          | n + 2 => simp at h
      | otherFrame =>
          have hs : runLoop (CaptureResult.otherFrame :: rs)
              = [NDIInEvent.recvCapture 1000, NDIInEvent.sleepMs 1] ++ runLoop rs := by
            simp [runLoop, processOne]
          rw [hs]
          exact emit_free_append (emit_free_block_pair _ _ rfl rfl) ih

/-- Claim C5, amended: every iteration of the receive loop blocks on a
receive with the bounded 1000 ms timeout; the loop never busy-loops (each
receive beyond the first follows a bounded 1 ms sleep of the previous
iteration); every emitted frame event is followed immediately by the
release of the library buffer (the code emits first and releases in the
finally clause — not release-then-emit as originally claimed); and the
frames emitted are exactly the BGR conversions of the well-shaped video
frames received, with nothing emitted on timeouts. -/
theorem run_receive_loop_amended (results : List CaptureResult) :
    (∀ t, NDIInEvent.recvCapture t ∈ runLoop results → t = 1000)
    ∧ countRecv (runLoop results) ≤ countSleep (runLoop results) + 1
    ∧ (∀ i d, (runLoop results)[i]? = some (NDIInEvent.emitFrame d) →
        (runLoop results)[i+1]? = some NDIInEvent.freeVideo)
    ∧ emittedFrames (runLoop results) = expectedEmits results :=
  ⟨runLoop_recv_timeout results, runLoop_count_bound results,
   runLoop_emit_then_free results, emitted_runLoop_eq_expected results⟩

/-- Witness for the amended C5: in the one-frame run, the emission at
index 1 is immediately followed by the buffer release at index 2. -/
theorem run_receive_loop_amended_witness :
    (runLoop [CaptureResult.videoFrame (some recvFrameExample)])[1+1]?
      = some NDIInEvent.freeVideo :=
  (run_receive_loop_amended [CaptureResult.videoFrame (some recvFrameExample)]).2.2.1 1
    [⟨10, 20, 30⟩] (by decide)

lemma prefix_no_start_take {P rest : List REvent} {i : Nat} {e : REvent}
    (hP : ∀ x ∈ P, isStartEvent x = false)
    (hget : (P ++ rest)[i]? = some e) (hst : isStartEvent e = true) :
    ∀ x ∈ P, x ∈ (P ++ rest).take i := by
  have hge : P.length ≤ i := by
    by_contra hlt
    push_neg at hlt
    rw [List.getElem?_append_left hlt] at hget
    have hmem : e ∈ P := List.mem_iff_getElem?.mpr ⟨i, hget⟩
    rw [hP e hmem] at hst
    exact Bool.noConfusion hst
  intro x hx
  rw [List.take_append_eq_append_take, List.take_of_length_le hge]
  exact List.mem_append_left _ hx

lemma start_conversion_events_shape (s : RouterState) (ic : InputChoice)
    (oc : OutputChoice) :
    ∃ X, (MainWindow.start_conversion s ic oc).2
      = ([REvent.statusSet "Starting..."] ++ (MainWindow.stop_conversion s).2
          ++ [REvent.previewStopped]) ++ X := by
  cases hsel : selectInput (MainWindow.stop_conversion s).1 ic with
  | error msg =>
      refine ⟨[REvent.errorReported msg], ?_⟩
      simp [MainWindow.start_conversion, hsel]
  | ok inp =>
      cases houtp : selectOutput (MainWindow.stop_conversion s).1 oc with
      | none =>
          refine ⟨[REvent.errorReported "Input or Output module not initialized correctly."], ?_⟩
          cases inp <;> simp [MainWindow.start_conversion, hsel, houtp]
      | some snk =>
          cases inp with
          | none =>
              refine ⟨[REvent.errorReported "Input or Output module not initialized correctly."], ?_⟩
              simp [MainWindow.start_conversion, hsel, houtp]
          | some src =>
              cases h1 : src.startOk with
              | false =>
                  refine ⟨[REvent.handlerDisconnected, REvent.handlerConnected src.id,
                    REvent.sourceStart src.id false,
                    REvent.statusSet ("Failed to start " ++ inputTypeName ic)], ?_⟩
                  simp [MainWindow.start_conversion, hsel, houtp, h1]
              | true =>
                  cases h2 : snk.startOk with
                  | false =>
                      refine ⟨[REvent.handlerDisconnected, REvent.handlerConnected src.id,
                        REvent.sourceStart src.id true, REvent.sinkStart snk.id false,
                        REvent.sourceStop src.id,
                        REvent.statusSet ("Failed to start " ++ outputTypeName oc)], ?_⟩
                      simp [MainWindow.start_conversion, hsel, houtp, h1, h2]
                  | true =>
                      refine ⟨[REvent.handlerDisconnected, REvent.handlerConnected src.id,
                        REvent.sourceStart src.id true, REvent.sinkStart snk.id true,
                        REvent.statusSet
                          ("Running: " ++ inputTypeName ic ++ " to " ++ outputTypeName oc)], ?_⟩
                      simp [MainWindow.start_conversion, hsel, houtp, h1, h2]

/-- Claim C3: a `start_conversion` issued while a pipeline is running
performs the full stop of the old endpoints first: before any start event
of the new endpoints appears in the trace, the stop of the old source and
the stop of the old sink have both already completed (all calls are synchronous, so
trace order is completion order — the pipelines never overlap). -/
theorem start_conversion_stop_before_start
    (s : RouterState) (ic : InputChoice) (oc : OutputChoice)
    (src : SourceRef) (snk : SinkRef)
    (hrun : s.stop_enabled = true)
    (h1 : s.current_input = some src) (h2 : s.current_output = some snk) :
    ∀ i e, ((MainWindow.start_conversion s ic oc).2)[i]? = some e →
      isStartEvent e = true →
      REvent.sourceStop src.id ∈ ((MainWindow.start_conversion s ic oc).2).take i
      ∧ REvent.sinkStop snk.id ∈ ((MainWindow.start_conversion s ic oc).2).take i := by
  obtain ⟨X, hX⟩ := start_conversion_events_shape s ic oc
  have hstop : (MainWindow.stop_conversion s).2
      = [REvent.sourceStop src.id, REvent.sinkStop snk.id, REvent.statusSet "Stopped"] := by
    simp [MainWindow.stop_conversion, h1, h2]
  rw [hstop] at hX
  have hX2 : (MainWindow.start_conversion s ic oc).2
      = [REvent.statusSet "Starting...", REvent.sourceStop src.id, REvent.sinkStop snk.id,
         REvent.statusSet "Stopped", REvent.previewStopped] ++ X := by
    simpa using hX
  intro i e hget hst
  rw [hX2] at hget ⊢
  have hnostart : ∀ x ∈ [REvent.statusSet "Starting...", REvent.sourceStop src.id,
      REvent.sinkStop snk.id, REvent.statusSet "Stopped", REvent.previewStopped],
      isStartEvent x = false := by
    intro x hx
    simp at hx
    rcases hx with rfl | rfl | rfl | rfl | rfl <;> rfl
  have hmem := prefix_no_start_take hnostart hget hst
  exact ⟨hmem _ (by simp), hmem _ (by simp)⟩

/-- Witness for C3: switching away from the running example pipeline to a
fresh NDI source; the first start event sits at index 7 and both old
stops are already in the trace before it. -/
theorem start_conversion_stop_before_start_witness :
    REvent.sourceStop 1
      ∈ ((MainWindow.start_conversion routerRunningExample
          (InputChoice.ndiInput "Cam" (some ⟨6, true⟩)) OutputChoice.ndiOutput).2).take 7
    ∧ REvent.sinkStop 2
      ∈ ((MainWindow.start_conversion routerRunningExample
          (InputChoice.ndiInput "Cam" (some ⟨6, true⟩)) OutputChoice.ndiOutput).2).take 7 :=
  start_conversion_stop_before_start routerRunningExample
    (InputChoice.ndiInput "Cam" (some ⟨6, true⟩)) OutputChoice.ndiOutput
    ⟨1, true⟩ ⟨2, true⟩ rfl rfl rfl 7 (REvent.sourceStart 6 true) (by decide) rfl

lemma stop_conversion_no_sinkStart (s : RouterState) (j : Nat) (b : Bool) :
    REvent.sinkStart j b ∉ (MainWindow.stop_conversion s).2 := by
  cases hci : s.current_input <;> cases hco : s.current_output <;>
    simp [MainWindow.stop_conversion, hci, hco]

/-- Claim C1: when `start()` of the resolved source fails, the sink is
never started (no sink-start event occurs anywhere in the trace), the
router stays Idle and the failure is reported in the status; when the
source starts but `start()` of the sink fails, the source is stopped again
immediately after the failed sink start (rollback), the router stays Idle
and the failure is reported. -/
theorem start_conversion_failure_rollback
    (s : RouterState) (ic : InputChoice) (oc : OutputChoice)
    (src : SourceRef) (snk : SinkRef)
    (hin : selectInput (MainWindow.stop_conversion s).1 ic = .ok (some src))
    (hout : selectOutput (MainWindow.stop_conversion s).1 oc = some snk) :
    (src.startOk = false →
      routerIdle (MainWindow.start_conversion s ic oc).1
      ∧ (MainWindow.start_conversion s ic oc).1.status
          = "Failed to start " ++ inputTypeName ic
      ∧ (∀ j b, REvent.sinkStart j b ∉ (MainWindow.start_conversion s ic oc).2)
      ∧ REvent.sourceStart src.id false ∈ (MainWindow.start_conversion s ic oc).2)
    ∧ (src.startOk = true → snk.startOk = false →
      routerIdle (MainWindow.start_conversion s ic oc).1
      ∧ (MainWindow.start_conversion s ic oc).1.status
          = "Failed to start " ++ outputTypeName oc
      ∧ (∃ k, ((MainWindow.start_conversion s ic oc).2)[k]?
            = some (REvent.sinkStart snk.id false)
          ∧ ((MainWindow.start_conversion s ic oc).2)[k+1]?
            = some (REvent.sourceStop src.id))) := by
  constructor
  · intro hsrc
    refine ⟨⟨?_, ?_⟩, ?_, ?_, ?_⟩
    · simp [MainWindow.start_conversion, hin, hout, hsrc]
      rfl
    · simp [MainWindow.start_conversion, hin, hout, hsrc]
      rfl
    · simp [MainWindow.start_conversion, hin, hout, hsrc]
    · intro j b hmem
      simp [MainWindow.start_conversion, hin, hout, hsrc] at hmem
      exact stop_conversion_no_sinkStart s j b hmem
    · simp [MainWindow.start_conversion, hin, hout, hsrc]
  · intro hsrc hsnk
    have hev : (MainWindow.start_conversion s ic oc).2
        = ([REvent.statusSet "Starting..."] ++ (MainWindow.stop_conversion s).2
            ++ [REvent.previewStopped])
          ++ [REvent.handlerDisconnected, REvent.handlerConnected src.id,
              REvent.sourceStart src.id true, REvent.sinkStart snk.id false,
              REvent.sourceStop src.id,
              REvent.statusSet ("Failed to start " ++ outputTypeName oc)] := by
      simp [MainWindow.start_conversion, hin, hout, hsrc, hsnk]
    refine ⟨⟨?_, ?_⟩, ?_, ?_⟩
    · simp [MainWindow.start_conversion, hin, hout, hsrc, hsnk]
      rfl
    · simp [MainWindow.start_conversion, hin, hout, hsrc, hsnk]
      rfl
    · simp [MainWindow.start_conversion, hin, hout, hsrc, hsnk]
    · refine ⟨([REvent.statusSet "Starting..."] ++ (MainWindow.stop_conversion s).2
          ++ [REvent.previewStopped]).length + 3, ?_, ?_⟩
      · rw [hev, List.getElem?_append_right (Nat.le_add_right _ 3)]
        have harith : ([REvent.statusSet "Starting..."] ++ (MainWindow.stop_conversion s).2
            ++ [REvent.previewStopped]).length + 3
            - ([REvent.statusSet "Starting..."] ++ (MainWindow.stop_conversion s).2
                ++ [REvent.previewStopped]).length = 3 := by omega
        rw [harith]
        rfl
      · rw [hev]
        rw [List.getElem?_append_right (by omega)]
        have harith : ([REvent.statusSet "Starting..."] ++ (MainWindow.stop_conversion s).2
            ++ [REvent.previewStopped]).length + 3 + 1
            - ([REvent.statusSet "Starting..."] ++ (MainWindow.stop_conversion s).2
                ++ [REvent.previewStopped]).length = 4 := by omega
        rw [harith]
        rfl

/-- A router state at startup: no conversion running, modules initialized;
`start()` of the SDI capture module will fail. -/
def routerFailExample : RouterState :=
  { current_input := none, current_output := none,
    sdi_capture := some ⟨4, false⟩, ndi_output := some ⟨5, true⟩,
    sdi_output := none,
    start_enabled := true, stop_enabled := false, status := "Ready" }

/-- Witness for C1: starting the failing SDI capture leaves the router
Idle with the failure reported and never starts the sink. -/
theorem start_conversion_failure_rollback_witness :
    routerIdle (MainWindow.start_conversion routerFailExample
        InputChoice.sdiCapture OutputChoice.ndiOutput).1
    ∧ (MainWindow.start_conversion routerFailExample
        InputChoice.sdiCapture OutputChoice.ndiOutput).1.status
      = "Failed to start " ++ inputTypeName InputChoice.sdiCapture :=
  ⟨((start_conversion_failure_rollback routerFailExample InputChoice.sdiCapture
      OutputChoice.ndiOutput ⟨4, false⟩ ⟨5, true⟩ rfl rfl).1 rfl).1,
   ((start_conversion_failure_rollback routerFailExample InputChoice.sdiCapture
      OutputChoice.ndiOutput ⟨4, false⟩ ⟨5, true⟩ rfl rfl).1 rfl).2.1⟩
